import Mathlib

/-!
Verification of the `js-inheritance` library (`src/inheritance.js`).

The library builds a small class system on top of JavaScript prototype
delegation.  We give a shallow embedding of the relevant JavaScript
fragment:

* `Val` — runtime values: `undefined`, `null`, strings, numbers, plain
  objects (own properties as an association list plus a prototype link),
  user functions (source text plus a defunctionalised body), the wrapper
  closures produced by `Helper.wrap`, and references to class
  constructor functions.
* `Expr` — the bodies of the methods appearing in the scenarios: string
  literals, argument access, `this.name` reads/writes, zero-argument
  method calls `this.name()` (which covers `this.super()`), string
  concatenation with `+`, sequencing, and `throw`.
* `evalE` / `callValWith` / `callVal` — a fuel-bounded big-step
  interpreter.  An uncaught exception propagates as `.thrown`, aborting
  the rest of the caller's body, exactly as in JavaScript; `none` means
  the fuel ran out.

On top of that, `Helper.extend`, `Helper.wrap`, `Helper.parseArgs`,
`Helper.inherit`, `Helper.isFn`, `Helper.hasFnSuperCall` and
`Class.create` are translated from the source.
-/

/-- Method bodies, defunctionalised.  `this.super()` is literally the
zero-argument call `callThis0 "super"`: in JavaScript it is an ordinary
property call on `this`. -/
inductive Expr where
  | litStr : String → Expr
  | litUndef : Expr
  /-- the i-th element of `arguments` -/
  | arg : Nat → Expr
  /-- `this.name` -/
  | getThis : String → Expr
  /-- `this.name = e` -/
  | setThis : String → Expr → Expr
  /-- `this.name()` -/
  | callThis0 : String → Expr
  /-- `a + b` (string concatenation) -/
  | concat : Expr → Expr → Expr
  /-- `a; b` -/
  | seq : Expr → Expr → Expr
  /-- `throw e` -/
  | throwE : Expr → Expr

/-- Runtime values of the embedded JavaScript fragment. -/
inductive Val where
  /-- `undefined` -/
  | undef : Val
  /-- `null` (note `typeof null === 'object'`) -/
  | vnull : Val
  /-- a string -/
  | str : String → Val
  /-- a number (only naturals are needed) -/
  | num : Nat → Val
  /-- a plain object: own properties in insertion order, then the
  prototype link (`.vnull` for no prototype). -/
  | obj : List (String × Val) → Val → Val
  /-- a user function: its source text (as `toString` reports it) and
  its body. -/
  | fn : String → Expr → Val
  /-- the closure returned by `Helper.wrap(fnName, fn, __super__)`:
  member name, the original callable, the captured parent prototype. -/
  | wrapped : String → Val → Val → Val
  /-- a reference to a class constructor function, by identity. -/
  | classRef : Nat → Val

/-- Look a key up in an own-property list. -/
def lookupOwn : List (String × Val) → String → Option Val
  | [], _ => none
  | (k, w) :: rest, n => if k == n then some w else lookupOwn rest n

/-- Set a key in an own-property list: update in place, else append
(JavaScript property-set key order). -/
def setAssoc : List (String × Val) → String → Val → List (String × Val)
  | [], n, v => [(n, v)]
  | (k, w) :: rest, n, v =>
      if k == n then (n, v) :: rest else (k, w) :: setAssoc rest n v

/-- Property get on a value, walking the prototype chain; `undefined`
off non-objects and absent names, as in (non-throwing) JavaScript reads. -/
def getProp : Val → String → Val
  | .obj own proto, n =>
      match lookupOwn own n with
      | some v => v
      | none => getProp proto n
  | _, _ => (.undef)

/-- Set an own property on an object value (identity on non-objects). -/
def setOwn : Val → String → Val → Val
  | .obj own proto, n, v => .obj (setAssoc own n v) proto
  | o, _, _ => o

/-- A method receiver (`this`): always an object — own properties plus
a prototype link into its class's member table. -/
structure Inst where
  own : List (String × Val)
  proto : Val

/-- Property get on the receiver: own properties first, then the
prototype chain. -/
def getInst (i : Inst) (n : String) : Val :=
  match lookupOwn i.own n with
  | some v => v
  | none => getProp i.proto n

/-- Property set on the receiver: always an own property. -/
def setInst (i : Inst) (n : String) (v : Val) : Inst :=
  { i with own := setAssoc i.own n v }

/-- Outcome of running a body: normal return or uncaught exception,
each with the receiver's final state. -/
inductive Res where
  | ok : Inst → Val → Res
  | thrown : Inst → Val → Res

/-- Apply a callable value, given an evaluator `ev` for function bodies.
The `.wrapped` case is the translation of the closure built in
`Helper.wrap` (src/inheritance.js lines 53–59): save `this.super`, set
`this.super = __super__[fnName]`, run the original callable, restore,
return the result.  There is no `try`/`finally` in the source, so when
the original callable throws, the restore statement is never reached
and the exception propagates with the super slot still overwritten. -/
def callValWith (ev : Expr → Inst → List Val → Option Res) :
    Val → Inst → List Val → Option Res
  | .fn _ body, th, args => ev body th args
  | .wrapped name orig sup, th, args =>
      let saved := getInst th "super"
      let th1 := setInst th "super" (getProp sup name)
      match callValWith ev orig th1 args with
      | some (.ok st v) => some (.ok (setInst st "super" saved) v)
      | r => r
  | _, th, _ => some (.thrown th (.str "TypeError"))

/-- Fuel-bounded evaluator for method bodies.  `none` = out of fuel. -/
def evalE : Nat → Expr → Inst → List Val → Option Res
  | 0, _, _, _ => none
  | fuel + 1, e, th, args =>
    match e with
    | .litStr s => some (.ok th (.str s))
    | .litUndef => some (.ok th .undef)
    | .arg i => some (.ok th (args.getD i .undef))
    | .getThis n => some (.ok th (getInst th n))
    | .setThis n e1 =>
        match evalE fuel e1 th args with
        | some (.ok th1 v) => some (.ok (setInst th1 n v) v)
        | r => r
    | .callThis0 n =>
        callValWith (fun e2 th2 a2 => evalE fuel e2 th2 a2) (getInst th n) th []
    | .concat a b =>
        match evalE fuel a th args with
        | some (.ok th1 va) =>
            match evalE fuel b th1 args with
            | some (.ok th2 vb) =>
                match va, vb with
                | .str x, .str y => some (.ok th2 (.str (x ++ y)))
                | _, _ => some (.thrown th2 (.str "TypeError"))
            | r => r
        | r => r
    | .seq a b =>
        match evalE fuel a th args with
        | some (.ok th1 _) => evalE fuel b th1 args
        | r => r
    | .throwE e1 =>
        match evalE fuel e1 th args with
        | some (.ok th1 v) => some (.thrown th1 v)
        | r => r

/-- Apply a callable value with a fuel bound. -/
def callVal (fuel : Nat) (v : Val) (th : Inst) (args : List Val) : Option Res :=
  match fuel with
  | 0 => none
  | fuel + 1 => callValWith (fun e th2 a2 => evalE fuel e th2 a2) v th args

/-- Invoke `inst.name(args)`: look the callable up through the
prototype chain and apply it with `inst` as receiver. -/
def callMethod (fuel : Nat) (i : Inst) (n : String) (args : List Val) :
    Option Res :=
  callVal fuel (getInst i n) i args

/-- Just the returned value of a run (`none` for throw / out of fuel). -/
def retVal : Option Res → Option Val
  | some (.ok _ v) => some v
  | _ => none

/-- Outcome observable of a run: `true` + value for a normal return,
`false` + value for an uncaught exception. -/
def resOut : Option Res → Option (Bool × Val)
  | some (.ok _ v) => some (true, v)
  | some (.thrown _ v) => some (false, v)
  | none => none

/-- The receiver's `super` slot after a run (whatever the exit path). -/
def superAfter : Option Res → Option Val
  | some (.ok st _) => some (getInst st "super")
  | some (.thrown st _) => some (getInst st "super")
  | none => none

/-- JavaScript truthiness. -/
def truthy : Val → Bool
  | .undef => false
  | .vnull => false
  | .str s => s ≠ ""
  | .num n => n ≠ 0
  | .obj _ _ => true
  | .fn _ _ => true
  | .wrapped _ _ _ => true
  | .classRef _ => true

/-- `Helper.isFn` (src/inheritance.js line 147): `typeof o === 'function'`.
User functions, the wrapper closures and class constructors are all
functions. -/
def Helper.isFn : Val → Bool
  | .fn _ _ => true
  | .wrapped _ _ _ => true
  | .classRef _ => true
  | _ => false

/-- Substring occurrence on character lists: does the pattern occur at
the head? -/
def listHasPre : List Char → List Char → Bool
  | [], _ => true
  | _ :: _, [] => false
  | p :: ps, c :: cs => p == c && listHasPre ps cs

/-- Substring occurrence on character lists, at any position. -/
def listHasSub (p : List Char) : List Char → Bool
  | [] => listHasPre p []
  | c :: cs => listHasPre p (c :: cs) || listHasSub p cs

/-- `s.indexOf(pat) !== -1`: the pattern occurs somewhere in `s`. -/
def strIncludesSub (s pat : String) : Bool :=
  listHasSub pat.toList s.toList

/-- The source text of the closure returned by `Helper.wrap` — what
`toString` reports for a wrapped function (lines 53–59).  It contains
the token `.super`. -/
def wrapSrc : String :=
  "function () \x7b var currentSuperMethod = this.super; this.super = SUPER[fnName]; var result = fn.apply(this, arguments); this.super = currentSuperMethod; return result; \x7d"

/-- The source text of the `Class` constructor function (lines 200–203). -/
def classCtorSrc : String :=
  "function () \x7b Helper.isFn(this.init) && this.init.apply(this, arguments); \x7d"

/-- `toString` of a value, where a function's source text matters. -/
def srcOfVal : Val → String
  | .fn src _ => src
  | .wrapped _ _ _ => wrapSrc
  | .classRef _ => classCtorSrc
  | _ => ""

/-- `Helper.hasFnSuperCall` (line 157): a function whose source text
contains `.super` — `this.isFn(fn) && fn.toString().indexOf('.super') !== -1`. -/
def Helper.hasFnSuperCall (fn : Val) : Bool :=
  Helper.isFn fn && strIncludesSub (srcOfVal fn) ".super"

/-- `Helper.wrap` (line 52) builds the wrapper closure capturing the
member name, the original callable and the parent prototype. -/
def Helper.wrap (fnName : String) (fn : Val) (sup : Val) : Val :=
  .wrapped fnName fn sup

/-- One iteration of the loop in `Helper.extend` (lines 32–40): install
`props[name]` into `obj`, wrapping exactly when
`__super__ && this.hasFnSuperCall(props[name]) && this.isFn(obj[name])`. -/
def Helper.installOne (obj : Val) (sup : Val) (name : String) (v : Val) : Val :=
  if truthy sup && Helper.hasFnSuperCall v && Helper.isFn (getProp obj name) then
    setOwn obj name (Helper.wrap name v sup)
  else
    setOwn obj name v

/-- `Helper.extend` (line 31): iterate over the source object's own
properties in order, installing each into the target. -/
def Helper.extend (obj props sup : Val) : Val :=
  match props with
  | .obj own _ => own.foldl (fun acc nv => Helper.installOne acc sup nv.1 nv.2) obj
  | _ => obj

/-- A class value: identity, `prototype` (the member table), the static
properties set directly on the constructor function, and `__super__`
(the reference to the parent prototype; `undefined` for a root). -/
structure ClassV where
  id : Nat
  proto : Val
  statics : Val
  superRef : Val

/-- `Helper.inherit` (lines 128–139) as a transformer of the pair
(parent, child): the three assignments in the source all target the
child — `child.prototype = this.createObject(parent.prototype)`,
`child.prototype.constructor = child`, `child.__super__ =
parent.prototype` — and the parent is left untouched. -/
def Helper.inheritS (parent child : ClassV) : ClassV × ClassV :=
  (parent,
   { child with
       proto := setOwn (Val.obj [] parent.proto) "constructor" (Val.classRef child.id)
       superRef := parent.proto })

/-- The child after `Helper.inherit(parent, child)`. -/
def Helper.inherit (parent child : ClassV) : ClassV :=
  (Helper.inheritS parent child).2

/-- Arguments to `Class.create`, tagged the way `typeof` sees them. -/
inductive Arg where
  | cls : ClassV → Arg
  | objArg : Val → Arg
  | nullArg : Arg
  | strArg : String → Arg
  | numArg : Nat → Arg
  | boolArg : Bool → Arg
  | undefArg : Arg

/-- JavaScript `typeof` on an argument; note `typeof null === 'object'`. -/
def typeofArg : Arg → String
  | .cls _ => "function"
  | .objArg _ => "object"
  | .nullArg => "object"
  | .strArg _ => "string"
  | .numArg _ => "number"
  | .boolArg _ => "boolean"
  | .undefArg => "undefined"

/-- The value an argument stands for when stored as `props` or
`staticProps`. -/
def argVal : Arg → Val
  | .objArg v => v
  | .nullArg => .vnull
  | .strArg s => .str s
  | .numArg n => .num n
  | .boolArg _ => .undef
  | .undefArg => .undef
  | .cls c => .classRef c.id

/-- The class an argument stands for when stored as `parent`. -/
def argParent : Arg → Option ClassV
  | .cls c => some c
  | _ => none

/-- The descriptor produced by `Helper.parseArgs`:
`{parent, props, staticProps}`, each possibly absent. -/
structure ParsedArgs where
  parent : Option ClassV := none
  props : Option Val := none
  staticProps : Option Val := none

/-- `Helper.parseArgs` (lines 80–119): classify the argument list by
length and `typeof`, throwing `TypeError('Invalid arguments')` for any
unrecognised shape.  With three or more arguments, the extras are
ignored. -/
def Helper.parseArgs (args : List Arg) : Except String ParsedArgs :=
  if args.length == 1 then
    let a0 := args.getD 0 .undefArg
    if typeofArg a0 == "function" then
      .ok { parent := argParent a0 }
    else if typeofArg a0 == "object" then
      .ok { props := some (argVal a0) }
    else
      .error "Invalid arguments"
  else if args.length == 2 then
    let a0 := args.getD 0 .undefArg
    let a1 := args.getD 1 .undefArg
    if typeofArg a0 == "function" && typeofArg a1 == "object" then
      .ok { parent := argParent a0, props := some (argVal a1) }
    else if typeofArg a0 == "object" && typeofArg a1 == "object" then
      .ok { props := some (argVal a0), staticProps := some (argVal a1) }
    else
      .error "Invalid arguments"
  else if args.length ≥ 3 then
    let a0 := args.getD 0 .undefArg
    let a1 := args.getD 1 .undefArg
    let a2 := args.getD 2 .undefArg
    if typeofArg a0 != "function" || typeofArg a1 != "object" || typeofArg a2 != "object" then
      .error "Invalid arguments"
    else
      .ok { parent := argParent a0, props := some (argVal a1),
            staticProps := some (argVal a2) }
  else
    .ok {}

/-- The default no-op `init` installed on every fresh prototype
(`Class.prototype.init = function () {}`, line 206). -/
def defaultInit : Val :=
  .fn "function () \x7b\x7d" (.litUndef)

/-- `Class.create` (lines 193–218).  `idn` stands for the identity of
the freshly allocated constructor function.  Order as in the source:
parse the arguments; allocate the constructor with its default
prototype (`constructor` back-link, then the default `init`); if a
parent was given, `Helper.inherit` replaces the prototype by a
delegating one; if `props` is truthy, extend the prototype with
`Class.__super__` as the wrap target; if `staticProps` is truthy,
extend the constructor itself with no `__super__`. -/
def Class.create (idn : Nat) (argList : List Arg) : Except String ClassV :=
  match Helper.parseArgs argList with
  | .error e => .error e
  | .ok args =>
      let c0 : ClassV :=
        { id := idn
          proto := setOwn (setOwn (Val.obj [] .vnull) "constructor" (Val.classRef idn))
                     "init" defaultInit
          statics := Val.obj [] .vnull
          superRef := .undef }
      let c1 := match args.parent with
                | some p => Helper.inherit p c0
                | none => c0
      let c2 := match args.props with
                | some pr =>
                    if truthy pr then
                      { c1 with proto := Helper.extend c1.proto pr c1.superRef }
                    else c1
                | none => c1
      let c3 := match args.staticProps with
                | some sp =>
                    if truthy sp then
                      { c2 with statics := Helper.extend c2.statics sp .undef }
                    else c2
                | none => c2
      .ok c3

/-- `new C(args)` (lines 200–203): allocate a bare instance whose
prototype is the class's member table, and run `init` through the
delegation chain if it is a function.  The final receiver state is the
constructed instance. -/
def construct (fuel : Nat) (c : ClassV) (args : List Val) : Option Res :=
  let inst : Inst := ⟨[], c.proto⟩
  let initV := getInst inst "init"
  if Helper.isFn initV then callVal fuel initV inst args
  else some (.ok inst .undef)

/-- Extract the class from a successful `Class.create` (scenario
definitions only ever use it on successful calls). -/
def getOk : Except String ClassV → ClassV
  | .ok c => c
  | .error _ => ⟨0, .vnull, .vnull, .undef⟩

/-! ## Scenario: two-level super dispatch (spec §8, claim C2) -/

/-- `A.greet`: `function () { return "A"; }`. -/
def greetA : Val :=
  .fn "function () \x7b return \x22A\x22; \x7d" (.litStr "A")

/-- `B.greet`: `function () { return "B:" + this.super(); }` — the
source text contains the token `.super`. -/
def greetB : Val :=
  .fn "function () \x7b return \x22B:\x22 + this.super(); \x7d"
    (.concat (.litStr "B:") (.callThis0 "super"))

/-- `var A = Class.create({greet: ...})`. -/
def classA : ClassV :=
  getOk (Class.create 0 [Arg.objArg (.obj [("greet", greetA)] .vnull)])

/-- `var B = Class.create(A, {greet: ...})`. -/
def classB : ClassV :=
  getOk (Class.create 1 [Arg.cls classA, Arg.objArg (.obj [("greet", greetB)] .vnull)])

/-- `new B()`. -/
def instB : Inst := ⟨[], classB.proto⟩

/-! ## Scenario: reentrant nesting (spec §5/§8, claim C4)

Parent `P` defines `m` (which re-enters `this.n()`) and `n`; child `C`
overrides both with methods that call `this.super()`, and `C.m` calls
its super reference twice — once before and once after the inner
reentrant call has come and gone. -/

/-- `P.m`: `function () { return "Pm:" + this.n(); }` — re-enters
another (wrapped) method on the same instance. -/
def pmFn : Val :=
  .fn "function () \x7b return \x22Pm:\x22 + this.n(); \x7d"
    (.concat (.litStr "Pm:") (.callThis0 "n"))

/-- `P.n`: `function () { return "Pn"; }`. -/
def pnFn : Val :=
  .fn "function () \x7b return \x22Pn\x22; \x7d" (.litStr "Pn")

/-- `C.m`: `function () { return "Cm:" + this.super() + "|" + this.super(); }`
— the second super call checks the binding after the inner call to `n`
has unwound. -/
def cmFn : Val :=
  .fn "function () \x7b return \x22Cm:\x22 + this.super() + \x22|\x22 + this.super(); \x7d"
    (.concat (.litStr "Cm:")
      (.concat (.callThis0 "super")
        (.concat (.litStr "|") (.callThis0 "super"))))

/-- `C.n`: `function () { return "Cn:" + this.super(); }`. -/
def cnFn : Val :=
  .fn "function () \x7b return \x22Cn:\x22 + this.super(); \x7d"
    (.concat (.litStr "Cn:") (.callThis0 "super"))

/-- `var P = Class.create({m: ..., n: ...})`. -/
def classP : ClassV :=
  getOk (Class.create 2 [Arg.objArg (.obj [("m", pmFn), ("n", pnFn)] .vnull)])

/-- `var C = Class.create(P, {m: ..., n: ...})` — both overriding
methods get wrapped. -/
def classC : ClassV :=
  getOk (Class.create 3 [Arg.cls classP, Arg.objArg (.obj [("m", cmFn), ("n", cnFn)] .vnull)])

/-- `new C()`. -/
def instC : Inst := ⟨[], classC.proto⟩

/-! ## Scenario: a wrapped method that throws (claim C1) -/

/-- The parent prototype for the C1 scenario, with an implementation
of `m`. -/
def supTabC1 : Val :=
  .obj [("m", .fn "function () \x7b return \x22parent\x22; \x7d" (.litStr "parent"))] .vnull

/-- An overriding `m` that mentions `this.super` and then throws:
`function () { this.super; throw "boom"; }`. -/
def fthrowC1 : Val :=
  .fn "function () \x7b this.super; throw \x22boom\x22; \x7d"
    (.seq (.getThis "super") (.throwE (.litStr "boom")))

/-- An overriding `m` that mentions `this.super` and returns normally. -/
def fretC1 : Val :=
  .fn "function () \x7b this.super; return \x22r\x22; \x7d"
    (.seq (.getThis "super") (.litStr "r"))

/-- An instance whose super slot holds a sentinel value before the call. -/
def instC1 : Inst := ⟨[("super", .str "SENTINEL")], .obj [] .vnull⟩

/-! ## Further scenario values used by witnesses -/

/-- A static member whose source text contains the `.super` token:
`function () { return this.super; }`. -/
def staticFnS : Val :=
  .fn "function () \x7b return this.super; \x7d" (.getThis "super")

/-- A static-member object for the C5 witness. -/
def staticsObjS : Val := .obj [("s", staticFnS)] .vnull

/-- `Class.create({}, {s: ...})` — a root class with one static member. -/
def classS : ClassV :=
  getOk (Class.create 4 [Arg.objArg (Val.obj [] Val.vnull), Arg.objArg staticsObjS])

/-- Source text with the `.super` token only inside a comment:
`function () { /* this.super */ return "hi"; }`. -/
def fpSrc : String :=
  "function () \x7b /* this.super */ return \x22hi\x22; \x7d"

/-- The body of the false-positive callable: it never touches `super`. -/
def fpBody : Expr := .litStr "hi"

/-- The false-positive callable. -/
def fpFn : Val := .fn fpSrc fpBody

/-- A subclass of `classA` defining no members of its own, for the C9
witness. -/
def classA2 : ClassV := getOk (Class.create 9 [Arg.cls classA])

/-- The class produced by `Class.create(null)`. -/
def nullClassC10 : ClassV := getOk (Class.create 5 [Arg.nullArg])

/-- Own-property lookup on an object value. -/
def lookupOwnV : Val → String → Option Val
  | .obj own _, n => lookupOwn own n
  | _, _ => none

/-! ## Support lemmas -/

/-- Constructor tag of a value, used to tell concrete values apart. -/
def valKind : Val → Nat
  | .undef => 0
  | .vnull => 1
  | .str _ => 2
  | .num _ => 3
  | .obj _ _ => 4
  | .fn _ _ => 5
  | .wrapped _ _ _ => 6
  | .classRef _ => 7

/-- Nesting depth of wrapper closures around a value. -/
def wrapDepth : Val → Nat
  | .wrapped _ o _ => wrapDepth o + 1
  | _ => 0

theorem wrap_ne_orig (name : String) (v sup : Val) : Helper.wrap name v sup ≠ v := by
  intro h
  have hd := congrArg wrapDepth h
  simp only [Helper.wrap, wrapDepth] at hd
  omega

theorem lookupOwn_setAssoc (l : List (String × Val)) (n : String) (v : Val) :
    lookupOwn (setAssoc l n v) n = some v := by
  induction l with
  | nil => simp [setAssoc, lookupOwn]
  | cons kv rest ih =>
      obtain ⟨k, w⟩ := kv
      by_cases hk : (k == n) = true
      · simp [setAssoc, hk, lookupOwn]
      · simp [setAssoc, hk, lookupOwn, ih]

theorem getInst_setInst_same (i : Inst) (n : String) (v : Val) :
    getInst (setInst i n v) n = v := by
  simp [getInst, setInst, lookupOwn_setAssoc]

/-! ## Claim C1 -/

/-- C1 (claim as stated is false): the super slot is NOT restored on
every exit path.  At this concrete input the wrapped callable throws;
the call exits with the exception, and the instance's super slot still
holds the parent implementation of `m` instead of its pre-call value
`"SENTINEL"`. -/
theorem C1_counterexample :
    getInst instC1 "super" = Val.str "SENTINEL"
    ∧ resOut (callVal 9 (Helper.wrap "m" fthrowC1 supTabC1) instC1 [])
        = some (false, Val.str "boom")
    ∧ superAfter (callVal 9 (Helper.wrap "m" fthrowC1 supTabC1) instC1 [])
        = some (getProp supTabC1 "m")
    ∧ superAfter (callVal 9 (Helper.wrap "m" fthrowC1 supTabC1) instC1 [])
        ≠ some (Val.str "SENTINEL") := by
  refine ⟨rfl, rfl, rfl, ?_⟩
  intro h
  exact absurd (congrArg (Option.map valKind) h) (by decide)

/-- C1 (amended): within a wrapped call the instance's super slot is
bound to the parent table's implementation for the member name, and it
is restored to its pre-call value when the original callable returns
normally; when the callable throws, the exception propagates without
the restore being executed. -/
theorem C1_wrap_super_binding (fuel : Nat) (name : String) (orig sup : Val)
    (th : Inst) (args : List Val) :
    callVal (fuel + 1) (Helper.wrap name orig sup) th args
      = (match callVal (fuel + 1) orig (setInst th "super" (getProp sup name)) args with
         | some (.ok st v) => some (.ok (setInst st "super" (getInst th "super")) v)
         | r => r)
    ∧ (∀ st v,
        callVal (fuel + 1) (Helper.wrap name orig sup) th args = some (.ok st v) →
          getInst st "super" = getInst th "super") := by
  constructor
  · rfl
  · intro st v h
    simp only [callVal, Helper.wrap, callValWith] at h
    cases hr : callValWith (fun e th2 a2 => evalE fuel e th2 a2) orig
        (setInst th "super" (getProp sup name)) args with
    | none => rw [hr] at h; exact absurd h (by simp)
    | some r =>
        rw [hr] at h
        cases r with
        | ok st1 v1 =>
            simp only [Option.some.injEq, Res.ok.injEq] at h
            rw [← h.1, getInst_setInst_same]
        | thrown st1 v1 => exact absurd h (by simp)

/-- C1 witness: a concrete normally-returning wrapped call, with the
restore fact derived from `C1_wrap_super_binding`. -/
theorem C1_wrap_super_binding_witness :
    callVal 9 (Helper.wrap "m" fretC1 supTabC1) instC1 []
      = some (.ok instC1 (Val.str "r"))
    ∧ getInst instC1 "super" = getInst instC1 "super" :=
  ⟨rfl, (C1_wrap_super_binding 8 "m" fretC1 supTabC1 instC1 []).2 instC1 (Val.str "r") rfl⟩

/-! ## Claim C2 -/

/-- C2: class `A` defines `greet()` returning `"A"`; class `B` with
parent `A` defines `greet()` returning `"B:"` prepended to its super
call.  An instance of `B` (built by the real `Class.create` pipeline)
calling `greet()` returns `"B:A"`. -/
theorem C2_two_level_super :
    construct 5 classB [] = some (.ok instB .undef)
    ∧ retVal (callMethod 30 instB "greet" []) = some (Val.str "B:A") :=
  ⟨rfl, rfl⟩

/-! ## Claim C4 -/

/-- C4: reentrant nesting.  `C.m` calls its super reference, the parent
implementation re-enters the wrapped `C.n` on the same instance, and
after `n` fully returns the outer frame's second super call still
resolves to `P.m` — the trace `"Cm:Pm:Cn:Pn|Pm:Cn:Pn"` is exactly the
LIFO save/restore behaviour (a non-restored slot would leave `P.n` in
place and change the part after `|`). -/
theorem C4_reentrant_nesting :
    construct 5 classC [] = some (.ok instC .undef)
    ∧ retVal (callMethod 40 instC "m" [])
        = some (Val.str "Cm:Pm:Cn:Pn|Pm:Cn:Pn") :=
  ⟨rfl, rfl⟩

/-! ## Claim C3 -/

/-- C3: one installation step of the member installer puts a wrapper
under `name` iff the parent table is truthy AND the source member is
callable AND its source text contains the `.super` token AND the target
already exposes a callable under `name` (own or delegated); in every
other case the source value itself is installed, overwriting any
existing own entry. -/
theorem C3_install_decision (own : List (String × Val)) (proto sup : Val)
    (name : String) (v : Val) :
    (lookupOwnV (Helper.installOne (Val.obj own proto) sup name v) name
        = some (Helper.wrap name v sup)
      ↔ truthy sup = true ∧ Helper.isFn v = true
        ∧ strIncludesSub (srcOfVal v) ".super" = true
        ∧ Helper.isFn (getProp (Val.obj own proto) name) = true)
    ∧ (¬(truthy sup = true ∧ Helper.isFn v = true
          ∧ strIncludesSub (srcOfVal v) ".super" = true
          ∧ Helper.isFn (getProp (Val.obj own proto) name) = true) →
        lookupOwnV (Helper.installOne (Val.obj own proto) sup name v) name
          = some v) := by
  have hcond :
      ((truthy sup && Helper.hasFnSuperCall v
          && Helper.isFn (getProp (Val.obj own proto) name)) = true)
        ↔ (truthy sup = true ∧ Helper.isFn v = true
            ∧ strIncludesSub (srcOfVal v) ".super" = true
            ∧ Helper.isFn (getProp (Val.obj own proto) name) = true) := by
    simp [Helper.hasFnSuperCall, Bool.and_eq_true, and_assoc]
  by_cases h : (truthy sup && Helper.hasFnSuperCall v
      && Helper.isFn (getProp (Val.obj own proto) name)) = true
  · constructor
    · rw [show Helper.installOne (Val.obj own proto) sup name v
          = setOwn (Val.obj own proto) name (Helper.wrap name v sup) by
            simp [Helper.installOne, h]]
      simp [setOwn, lookupOwnV, lookupOwn_setAssoc, hcond.mp h]
    · intro hn
      exact absurd (hcond.mp h) hn
  · have hinst : Helper.installOne (Val.obj own proto) sup name v
        = setOwn (Val.obj own proto) name v := by
      simp [Helper.installOne, h]
    constructor
    · rw [hinst]
      simp only [setOwn, lookupOwnV, lookupOwn_setAssoc]
      constructor
      · intro hv
        exact absurd (Option.some.inj hv).symm (wrap_ne_orig name v sup)
      · intro hc
        exact absurd (hcond.mpr hc) h
    · intro _
      rw [hinst]
      simp [setOwn, lookupOwnV, lookupOwn_setAssoc]

/-- C3 witness: at concrete inputs, both directions — a wrapper is
installed when all four conditions hold, and the raw value is installed
when the parent table is absent. -/
theorem C3_install_decision_witness :
    lookupOwnV (Helper.installOne (Val.obj [("greet", greetA)] .vnull) supTabC1
        "greet" greetB) "greet"
      = some (Helper.wrap "greet" greetB supTabC1)
    ∧ lookupOwnV (Helper.installOne (Val.obj [] .vnull) Val.undef
        "greet" greetB) "greet"
      = some greetB :=
  ⟨(C3_install_decision [("greet", greetA)] .vnull supTabC1 "greet" greetB).1.mpr
      (by refine ⟨rfl, rfl, ?_, ?_⟩ <;> rfl),
   (C3_install_decision [] .vnull Val.undef "greet" greetB).2
      (by intro hc; exact absurd hc.1 (by decide))⟩

/-- What `Class.create` puts into the `statics` and `__super__` fields,
as a function of the parsed descriptor: the statics table is built by
`Helper.extend` with the `__super__` argument omitted, and the
super-resolution reference is the parent's prototype (or `undefined`
for a root). -/
theorem create_fields (idn : Nat) (args : List Arg) (c : ClassV) (pa : ParsedArgs)
    (h : Class.create idn args = .ok c)
    (hpa : Helper.parseArgs args = .ok pa) :
    c.statics = (match pa.staticProps with
                 | some sp =>
                     if truthy sp then Helper.extend (Val.obj [] Val.vnull) sp Val.undef
                     else Val.obj [] Val.vnull
                 | none => Val.obj [] Val.vnull)
    ∧ c.superRef = (match pa.parent with
                    | some p => p.proto
                    | none => Val.undef) := by
  simp only [Class.create, hpa] at h
  rw [Except.ok.injEq] at h
  subst h
  obtain ⟨pp, pr, sp⟩ := pa
  constructor
  · cases pp <;> cases pr <;> cases sp <;>
      simp only [Helper.inherit, Helper.inheritS] <;>
      (repeat' split) <;> rfl
  · cases pp <;> cases pr <;> cases sp <;>
      simp only [Helper.inherit, Helper.inheritS] <;>
      (repeat' split) <;> rfl

/-! ## Claim C5 -/

/-- C5: static members are installed onto the class value with the
`__super__` argument omitted, so each one — even with the `.super`
token in its body — is installed directly (`Helper.extend` with an
absent parent table is a plain copy, no wrapper is ever built), and the
instance super-resolution reference is the parent's prototype, a value
the statics table is never part of. -/
theorem C5_statics_never_wrapped :
    (∀ obj name v, Helper.installOne obj Val.undef name v = setOwn obj name v)
    ∧ (∀ t own proto, Helper.extend t (Val.obj own proto) Val.undef
        = own.foldl (fun acc nv => setOwn acc nv.1 nv.2) t)
    ∧ (∀ idn args c pa, Class.create idn args = .ok c →
        Helper.parseArgs args = .ok pa →
          (pa.staticProps = none → c.statics = Val.obj [] Val.vnull)
          ∧ (∀ sp, pa.staticProps = some sp → truthy sp = true →
              c.statics = Helper.extend (Val.obj [] Val.vnull) sp Val.undef)
          ∧ (∀ p, pa.parent = some p → c.superRef = p.proto)
          ∧ (pa.parent = none → c.superRef = Val.undef)) := by
  have hone : ∀ obj name v,
      Helper.installOne obj Val.undef name v = setOwn obj name v := by
    intro obj name v
    simp [Helper.installOne, truthy]
  refine ⟨hone, ?_, ?_⟩
  · intro t own proto
    simp only [Helper.extend]
    induction own generalizing t with
    | nil => rfl
    | cons nv rest ih => simp [List.foldl, hone, ih]
  · intro idn args c pa h hpa
    obtain ⟨hst, hsup⟩ := create_fields idn args c pa h hpa
    refine ⟨?_, ?_, ?_, ?_⟩
    · intro hn; rw [hst, hn]
    · intro sp hsp htr; rw [hst, hsp]; simp [htr]
    · intro p hp; rw [hsup, hp]
    · intro hn; rw [hsup, hn]

/-- C5 witness: a class with a static member whose source contains the
`.super` token; the statics table is the plain copy and the member is
installed unwrapped. -/
theorem C5_statics_never_wrapped_witness :
    Class.create 4 [Arg.objArg (Val.obj [] Val.vnull), Arg.objArg staticsObjS] = .ok classS
    ∧ Helper.hasFnSuperCall staticFnS = true
    ∧ classS.statics = Helper.extend (Val.obj [] Val.vnull) staticsObjS Val.undef
    ∧ lookupOwnV classS.statics "s" = some staticFnS :=
  ⟨rfl, rfl,
   ((C5_statics_never_wrapped.2.2 4
        [Arg.objArg (Val.obj [] Val.vnull), Arg.objArg staticsObjS] classS
        { props := some (Val.obj [] Val.vnull), staticProps := some staticsObjS }
        rfl rfl).2.1 staticsObjS rfl rfl),
   rfl⟩

/-! ## Claim C6 -/

/-- With three or more arguments, `Helper.parseArgs` checks the first
three by `typeof` and ignores the rest. -/
theorem parseArgs_ge3 (x a b : Arg) (rest : List Arg) :
    Helper.parseArgs (x :: a :: b :: rest)
      = (if typeofArg x != "function" || typeofArg a != "object"
            || typeofArg b != "object"
         then .error "Invalid arguments"
         else .ok { parent := argParent x, props := some (argVal a),
                    staticProps := some (argVal b) }) := by
  rw [Helper.parseArgs]
  have h1 : ((x :: a :: b :: rest).length == 1) = false := rfl
  have h2 : ((x :: a :: b :: rest).length == 2) = false := rfl
  have h3 : (x :: a :: b :: rest).length ≥ 3 := by
    simp only [List.length_cons]
    omega
  simp [h1, h2, h3]

/-- C6: the argument patterns of §4.1.  0 args → empty descriptor;
1 arg: callable → parent only, object-typed → instance members only,
anything else → `Invalid arguments`; 2 args: (callable, object) →
parent + instance members, (object, object) → instance + static
members, anything else → `Invalid arguments`; ≥3 args: (callable,
object, object, extras ignored) → all three, anything else → `Invalid
arguments`.  On every failing pattern `Class.create` itself returns the
error, so no class value is produced. -/
theorem C6_argument_classification :
    (Helper.parseArgs [] = .ok {})
    ∧ (∀ c, Helper.parseArgs [Arg.cls c] = .ok { parent := some c })
    ∧ (∀ a, typeofArg a = "object" →
        Helper.parseArgs [a] = .ok { props := some (argVal a) })
    ∧ (∀ idn a, typeofArg a ≠ "function" → typeofArg a ≠ "object" →
        Helper.parseArgs [a] = .error "Invalid arguments"
        ∧ Class.create idn [a] = .error "Invalid arguments")
    ∧ (∀ c a, typeofArg a = "object" →
        Helper.parseArgs [Arg.cls c, a]
          = .ok { parent := some c, props := some (argVal a) })
    ∧ (∀ a b, typeofArg a = "object" → typeofArg b = "object" →
        Helper.parseArgs [a, b]
          = .ok { props := some (argVal a), staticProps := some (argVal b) })
    ∧ (∀ idn a b, ¬(typeofArg a = "function" ∧ typeofArg b = "object") →
        ¬(typeofArg a = "object" ∧ typeofArg b = "object") →
        Helper.parseArgs [a, b] = .error "Invalid arguments"
        ∧ Class.create idn [a, b] = .error "Invalid arguments")
    ∧ (∀ c a b rest, typeofArg a = "object" → typeofArg b = "object" →
        Helper.parseArgs (Arg.cls c :: a :: b :: rest)
          = .ok { parent := some c, props := some (argVal a),
                  staticProps := some (argVal b) })
    ∧ (∀ idn x a b rest,
        ¬(typeofArg x = "function" ∧ typeofArg a = "object" ∧ typeofArg b = "object") →
        Helper.parseArgs (x :: a :: b :: rest) = .error "Invalid arguments"
        ∧ Class.create idn (x :: a :: b :: rest) = .error "Invalid arguments") := by
  refine ⟨rfl, fun c => rfl, ?_, ?_, ?_, ?_, ?_, ?_, ?_⟩
  · intro a h
    cases a <;> first | rfl | simp [typeofArg] at h
  · intro idn a h1 h2
    cases a <;> first
      | exact ⟨rfl, rfl⟩
      | exact absurd rfl h1
      | exact absurd rfl h2
  · intro c a h
    cases a <;> first | rfl | simp [typeofArg] at h
  · intro a b ha hb
    cases a <;> cases b <;> first | rfl | simp [typeofArg] at ha hb
  · intro idn a b h1 h2
    cases a <;> cases b <;> first
      | exact ⟨rfl, rfl⟩
      | exact (h1 ⟨rfl, rfl⟩).elim
      | exact (h2 ⟨rfl, rfl⟩).elim
  · intro c a b rest ha hb
    cases a <;> cases b <;>
      simp only [typeofArg, String.reduceEq] at ha hb <;>
      (rw [parseArgs_ge3]; rfl)
  · intro idn x a b rest hn
    have hor : typeofArg x ≠ "function" ∨ typeofArg a ≠ "object"
        ∨ typeofArg b ≠ "object" := by tauto
    have hbool : (typeofArg x != "function" || typeofArg a != "object"
        || typeofArg b != "object") = true := by
      rcases hor with h | h | h <;> simp [h]
    have hperr : Helper.parseArgs (x :: a :: b :: rest)
        = .error "Invalid arguments" := by
      rw [parseArgs_ge3]
      simp [hbool]
    exact ⟨hperr, by simp [Class.create, hperr]⟩

/-- C6 witness: concrete non-enumerated patterns — a lone number, and a
(boolean, number) pair — fail with `Invalid arguments` at both
`Helper.parseArgs` and `Class.create`. -/
theorem C6_argument_classification_witness :
    (Helper.parseArgs [Arg.numArg 7] = .error "Invalid arguments"
      ∧ Class.create 0 [Arg.numArg 7] = .error "Invalid arguments")
    ∧ (Helper.parseArgs [Arg.boolArg true, Arg.numArg 2] = .error "Invalid arguments"
      ∧ Class.create 0 [Arg.boolArg true, Arg.numArg 2] = .error "Invalid arguments")
    ∧ Helper.parseArgs [Arg.cls classA, Arg.nullArg, Arg.objArg staticsObjS,
        Arg.numArg 9]
      = .ok { parent := some classA, props := some Val.vnull,
              staticProps := some staticsObjS } :=
  ⟨C6_argument_classification.2.2.2.1 0 (Arg.numArg 7) (by decide) (by decide),
   C6_argument_classification.2.2.2.2.2.2.1 0 (Arg.boolArg true) (Arg.numArg 2)
     (by decide) (by decide),
   C6_argument_classification.2.2.2.2.2.2.2.1 classA Arg.nullArg
     (Arg.objArg staticsObjS) [Arg.numArg 9] rfl rfl⟩

/-! ## Claim C7 -/

/-- C7: a falsely-detected wrapper is behaviour-preserving.  The
hypothesis renders "the callable never reads or invokes the super slot"
semantically: its run is unaffected by the super slot's initial value
(same outcome, and the final state just carries the untouched slot).
Under it, the wrapped version produces the same observable outcome —
value or thrown exception — as the unwrapped callable, for every
receiver and argument list. -/
theorem C7_false_positive_harmless (fuel : Nat) (name src : String) (body : Expr)
    (sup : Val) (th : Inst) (args : List Val)
    (hindep : ∀ x : Val,
      evalE fuel body (setInst th "super" x) args
        = (match evalE fuel body th args with
           | some (.ok st v) => some (.ok (setInst st "super" x) v)
           | some (.thrown st v) => some (.thrown (setInst st "super" x) v)
           | none => none)) :
    resOut (callVal (fuel + 1) (Helper.wrap name (Val.fn src body) sup) th args)
      = resOut (callVal (fuel + 1) (Val.fn src body) th args) := by
  simp only [callVal, Helper.wrap, callValWith]
  rw [hindep (getProp sup name)]
  cases hbase : evalE fuel body th args with
  | none => rfl
  | some r => cases r <;> rfl

/-- C7 witness: a callable whose source text contains `.super` only
inside a comment (a textual false positive, so `Helper.hasFnSuperCall`
is true), yet whose body never touches the slot; wrapping it does not
change the observable result. -/
theorem C7_false_positive_harmless_witness :
    Helper.hasFnSuperCall fpFn = true
    ∧ resOut (callVal 4 (Helper.wrap "m" fpFn supTabC1) instC1 [])
        = resOut (callVal 4 fpFn instC1 []) :=
  ⟨rfl,
   C7_false_positive_harmless 3 "m" fpSrc fpBody supTabC1 instC1 []
     (fun _ => rfl)⟩

/-! ## Claim C8 -/

/-- C8: `Helper.inherit(parent, child)` is pure on the parent: the
parent class (its member table, statics and identity) is returned
unchanged, while the child keeps its identity and statics and receives
a fresh delegating member table (empty own properties over the parent's
prototype, with its `constructor` identity link repaired to the child)
and the `__super__` reference to the parent's prototype. -/
theorem C8_inherit_frame (p c : ClassV) :
    (Helper.inheritS p c).1 = p
    ∧ (Helper.inheritS p c).2.id = c.id
    ∧ (Helper.inheritS p c).2.statics = c.statics
    ∧ (Helper.inheritS p c).2.proto
        = Val.obj [("constructor", Val.classRef c.id)] p.proto
    ∧ (Helper.inheritS p c).2.superRef = p.proto :=
  ⟨rfl, rfl, rfl, rfl, rfl⟩

/-! ## Claim C9 -/

/-- C9: a root class is constructible with `init` defaulting to a
no-op; a subclass that defines no members at all still constructs,
its `init` lookup falling through the delegation chain to the nearest
ancestor's `init`. -/
theorem C9_default_init :
    (∀ idn, Class.create idn []
      = .ok { id := idn,
              proto := Val.obj [("constructor", Val.classRef idn),
                                ("init", defaultInit)] Val.vnull,
              statics := Val.obj [] Val.vnull,
              superRef := Val.undef })
    ∧ (∀ idn c, Class.create idn [] = .ok c →
        construct 5 c [] = some (.ok ⟨[], c.proto⟩ .undef))
    ∧ (∀ A idB B, Class.create idB [Arg.cls A] = .ok B →
        getProp B.proto "init" = getProp A.proto "init")
    ∧ (∀ A idB B, Class.create idB [Arg.cls A] = .ok B →
        getProp A.proto "init" = defaultInit →
        construct 5 B [] = some (.ok ⟨[], B.proto⟩ .undef)) := by
  have hroot : ∀ idn : Nat, Class.create idn []
      = .ok { id := idn,
              proto := Val.obj [("constructor", Val.classRef idn),
                                ("init", defaultInit)] Val.vnull,
              statics := Val.obj [] Val.vnull,
              superRef := Val.undef } := fun idn => rfl
  have hsub : ∀ (A : ClassV) (idB : Nat), Class.create idB [Arg.cls A]
      = .ok { id := idB,
              proto := Val.obj [("constructor", Val.classRef idB)] A.proto,
              statics := Val.obj [] Val.vnull,
              superRef := A.proto } := fun A idB => rfl
  refine ⟨hroot, ?_, ?_, ?_⟩
  · intro idn c h
    rw [hroot idn] at h
    rw [Except.ok.injEq] at h
    subst h
    rfl
  · intro A idB B h
    rw [hsub A idB] at h
    rw [Except.ok.injEq] at h
    subst h
    rfl
  · intro A idB B h hinit
    rw [hsub A idB] at h
    rw [Except.ok.injEq] at h
    subst h
    have hget : getInst ⟨[], Val.obj [("constructor", Val.classRef idB)] A.proto⟩ "init"
        = getProp A.proto "init" := rfl
    simp only [construct, hget, hinit]
    rfl

/-- C9 witness: the concrete root `classA` and its member-less subclass
`classA2` — construction succeeds at both levels and `init` falls
through to the root's default. -/
theorem C9_default_init_witness :
    Class.create 9 [Arg.cls classA] = .ok classA2
    ∧ getProp classA2.proto "init" = getProp classA.proto "init"
    ∧ getProp classA.proto "init" = defaultInit
    ∧ construct 5 classA2 [] = some (.ok ⟨[], classA2.proto⟩ .undef)
    ∧ construct 5 (getOk (Class.create 7 [])) []
        = some (.ok ⟨[], (getOk (Class.create 7 [])).proto⟩ .undef) :=
  ⟨rfl,
   C9_default_init.2.2.1 classA 9 classA2 rfl,
   rfl,
   C9_default_init.2.2.2 classA 9 classA2 rfl rfl,
   C9_default_init.2.1 7 (getOk (Class.create 7 [])) rfl⟩

/-! ## Claim C10 -/

/-- C10: `Class.create(null)` does not raise `Invalid arguments` —
`typeof null === 'object'` classifies it as the member mapping, the
falsy member set is skipped during installation, and the result is a
working member-less class (constructible, with only the default
prototype entries).  Likewise a plain non-callable object as the single
argument succeeds. -/
theorem C10_null_single_argument :
    Helper.parseArgs [Arg.nullArg] = .ok { props := some Val.vnull }
    ∧ Class.create 5 [Arg.nullArg] = .ok nullClassC10
    ∧ nullClassC10.proto
        = Val.obj [("constructor", Val.classRef 5), ("init", defaultInit)] Val.vnull
    ∧ construct 5 nullClassC10 [] = some (.ok ⟨[], nullClassC10.proto⟩ .undef)
    ∧ (Class.create 6 [Arg.objArg (Val.obj [] Val.vnull)]).isOk = true :=
  ⟨rfl, rfl, rfl, rfl, rfl⟩
